import Mathlib

/- Shallow embedding of the invoice CRUD layer of this repository.

   The mutation actions come from src/unnamed/part_002 (the schema-validated
   version of app/lib/actions.ts: createInvoice, updateInvoice, deleteInvoice
   with safeParse validation and try/catch around each SQL statement); the
   edit page comes from src/unnamed/part_001 (the version with the
   missing-invoice check).

   Modelling conventions: JavaScript numbers are idealized as exact rationals;
   the current date string produced by new Date().toISOString().split(...) is
   passed explicitly as the `today` argument; the invoices table is a list of
   rows threaded through each action; whether the single SQL statement of an
   action throws is the boolean argument `dbFails`; the database-generated id
   of an inserted row is the `newId` argument. -/

namespace Accounting

/-- Invoice status, the two-member enumeration of the schema. -/
inductive Status where
  | pending
  | paid
deriving DecidableEq

/-- String stored in the status column for each enumeration member. -/
def Status.text : Status → String
  | .pending => "pending"
  | .paid => "paid"

/-- The three values the actions read from the submitted FormData.
    formData.get(name) yields null when the field is absent, modelled as
    none; a present field is the raw submitted string. -/
structure RawForm where
  customerId : Option String
  amount : Option String
  status : Option String
deriving DecidableEq

/-- Numeric value of a list of decimal digits, most significant first. -/
def natOfDigits (l : List Char) : Nat :=
  l.foldl (fun a c => a * 10 + (c.toNat - 48)) 0

/-- Unsigned decimal literal: digits, optionally a dot and further digits,
    with at least one digit overall. Anything else yields none, the NaN
    outcome of the JavaScript Number conversion. -/
def parseUnsigned (l : List Char) : Option ℚ :=
  let intPart := l.takeWhile Char.isDigit
  let rest := l.dropWhile Char.isDigit
  match rest with
  | [] => if intPart.isEmpty then none else some (natOfDigits intPart)
  | '.' :: frac =>
      if frac.all Char.isDigit && !(intPart.isEmpty && frac.isEmpty) then
        some ((natOfDigits intPart : ℚ) + (natOfDigits frac : ℚ) / ((10 : ℚ) ^ frac.length))
      else none
  | _ => none

/-- Coercion performed by the amount field of the schema (z.coerce.number()):
    JavaScript Number(x) on the raw value, with Number(null) = 0 and
    Number of the empty string = 0, decimal literals mapped to their exact
    rational value, and other strings mapped to none (NaN). -/
def jsNumber : Option String → Option ℚ
  | none => some 0
  | some s =>
    match s.toList with
    | [] => some 0
    | '-' :: t => (parseUnsigned t).map (fun q => -q)
    | '+' :: t => parseUnsigned t
    | l => parseUnsigned l

/-- Per-field message lists of flatten().fieldErrors. A field that validated
    has the empty list, standing for the absence of its key in the mapping. -/
structure FieldErrors where
  customerId : List String
  amount : List String
  status : List String
deriving DecidableEq

/-- Typed data produced by a successful parse of the CreateInvoice and
    UpdateInvoice schemas (FormSchema minus id and date). -/
structure InvoiceInput where
  customerId : String
  amount : ℚ
  status : Status
deriving DecidableEq

/-- Discriminated result of safeParse: success with the typed data, or
    failure with the per-field message lists. -/
inductive ParseResult where
  | success (data : InvoiceInput)
  | failure (errors : FieldErrors)
deriving DecidableEq

/-- Error list carried by one field check: empty on success. -/
def errsOf {α : Type} : Except (List String) α → List String
  | .ok _ => []
  | .error e => e

/-- Schema field customerId: a string with invalid_type_error
    "Please select a customer.". A null (absent field) fails with that
    message; any string passes. -/
def parseCustomerId : Option String → Except (List String) String
  | none => .error ["Please select a customer."]
  | some s => .ok s

/-- Schema field amount: coerce with Number, reject NaN with the zod default
    invalid-type message, then require the coerced value to be greater
    than 0 with the configured gt message. -/
def parseAmount (v : Option String) : Except (List String) ℚ :=
  match jsNumber v with
  | none => .error ["Expected number, received nan"]
  | some q =>
      if 0 < q then .ok q
      else .error ["Please enter an amount greater than $0."]

/-- Schema field status: the enumeration with invalid_type_error
    "Please select an invoice status.". A null fails with that message; a
    string other than the two members fails with the zod default enum
    message. -/
def parseStatus : Option String → Except (List String) Status
  | none => .error ["Please select an invoice status."]
  | some s =>
      if s = "pending" then .ok .pending
      else if s = "paid" then .ok .paid
      else .error ["Invalid enum value. Expected \x27pending\x27 | \x27paid\x27, received \x27" ++ s ++ "\x27"]

/-- CreateInvoice.safeParse and UpdateInvoice.safeParse applied to the three
    raw form fields: success with the typed record when every field
    validates, otherwise failure collecting the message list of each
    field. -/
def safeParse (f : RawForm) : ParseResult :=
  match parseCustomerId f.customerId, parseAmount f.amount, parseStatus f.status with
  | .ok c, .ok a, .ok s => .success { customerId := c, amount := a, status := s }
  | rc, ra, rs => .failure { customerId := errsOf rc, amount := errsOf ra, status := errsOf rs }

/-- One row of the invoices table. -/
structure Row where
  id : String
  customer_id : String
  amount : ℚ
  status : String
  date : String
deriving DecidableEq

/-- The State value an action returns to the form hook: optional per-field
    errors and an optional summary message. -/
structure ActionState where
  errors : Option FieldErrors
  message : Option String
deriving DecidableEq

/-- Observable outcome of one action: the value returned to the caller (none
    when control leaves via redirect and nothing is returned), the invoices
    table after the action, whether the cached listing was revalidated, and
    the redirect target if any. -/
structure Effects where
  returned : Option ActionState
  db : List Row
  revalidated : Bool
  redirectedTo : Option String
deriving DecidableEq

/-- createInvoice from src/unnamed/part_002: validate the form; on failure
    return the field errors with the missing-fields message and touch
    nothing; on success compute amountInCents = amount * 100 and insert a
    row dated `today` with the generated id `newId`; a throwing INSERT
    (dbFails) is caught and turned into the generic database-error message;
    otherwise revalidate the listing and redirect without returning. -/
def createInvoice (form : RawForm) (db : List Row) (newId today : String) (dbFails : Bool) : Effects :=
  match safeParse form with
  | .failure e =>
      { returned := some { errors := some e, message := some "Missing Fields. Failed to Create Invoice." },
        db := db, revalidated := false, redirectedTo := none }
  | .success d =>
      if dbFails then
        { returned := some { errors := none, message := some "Database Error: Failed to Create Invoice." },
          db := db, revalidated := false, redirectedTo := none }
      else
        { returned := none,
          db := db ++ [{ id := newId, customer_id := d.customerId, amount := d.amount * 100,
                         status := d.status.text, date := today }],
          revalidated := true,
          redirectedTo := some "/dashboard/invoices" }

/-- updateInvoice from src/unnamed/part_002: same validation as create; on
    success run UPDATE invoices SET customer_id, amount, status WHERE the id
    matches, leaving the date column and every other row untouched; a
    throwing UPDATE is caught and turned into the generic database-error
    message; otherwise revalidate the listing and redirect. -/
def updateInvoice (id : String) (form : RawForm) (db : List Row) (dbFails : Bool) : Effects :=
  match safeParse form with
  | .failure e =>
      { returned := some { errors := some e, message := some "Missing Fields. Failed to Update Invoice." },
        db := db, revalidated := false, redirectedTo := none }
  | .success d =>
      if dbFails then
        { returned := some { errors := none, message := some "Database Error: Failed to Update Invoice." },
          db := db, revalidated := false, redirectedTo := none }
      else
        { returned := none,
          db := db.map (fun r =>
            if r.id = id then
              { r with customer_id := d.customerId, amount := d.amount * 100, status := d.status.text }
            else r),
          revalidated := true,
          redirectedTo := some "/dashboard/invoices" }

/-- deleteInvoice from src/unnamed/part_002: run DELETE FROM invoices WHERE
    the id matches, then revalidate the listing and return the success
    message; a throwing DELETE is caught and turned into the database-error
    message with no revalidation. Neither path redirects. -/
def deleteInvoice (id : String) (db : List Row) (dbFails : Bool) : Effects :=
  if dbFails then
    { returned := some { errors := none, message := some "Database Error: Failed to Delete Invoice." },
      db := db, revalidated := false, redirectedTo := none }
  else
    { returned := some { errors := none, message := some "Deleted Invoice." },
      db := db.filter (fun r => r.id != id), revalidated := true, redirectedTo := none }

/-- One customer record, as returned by fetchCustomers. -/
structure Customer where
  id : String
  name : String
deriving DecidableEq

/-- What the edit page renders. -/
inductive PageRender where
  | notFoundView
  | editForm (invoice : Row) (customers : List Customer)
deriving DecidableEq

/-- The edit Page component from src/unnamed/part_001, after the parallel
    fetch of the invoice and the customer list has resolved: when the
    invoice lookup yielded no record, notFound() preempts rendering and the
    dedicated not-found view is shown; otherwise the breadcrumbs and the
    pre-populated edit form are rendered. -/
def editInvoicePage (invoice : Option Row) (customers : List Customer) : PageRender :=
  match invoice with
  | none => .notFoundView
  | some inv => .editForm inv customers

/-- Helper: when the amount field fails, safeParse fails and reports exactly
    that message list on amount, together with whatever the other two fields
    report. -/
theorem safeParse_amount_error (f : RawForm) (l : List String)
    (ha : parseAmount f.amount = .error l) :
    safeParse f = .failure
      { customerId := errsOf (parseCustomerId f.customerId), amount := l,
        status := errsOf (parseStatus f.status) } := by
  unfold safeParse
  cases hc : parseCustomerId f.customerId <;>
    cases hs : parseStatus f.status <;>
      simp [ha, errsOf]

/-- Helper: when every field validates, safeParse succeeds with the typed
    record. -/
theorem safeParse_ok (f : RawForm) (c : String) (a : ℚ) (s : Status)
    (hc : parseCustomerId f.customerId = .ok c)
    (ha : parseAmount f.amount = .ok a)
    (hs : parseStatus f.status = .ok s) :
    safeParse f = .success { customerId := c, amount := a, status := s } := by
  unfold safeParse
  rw [hc, ha, hs]

/-- Helper: the customerId check never produces an empty message list. -/
theorem customerId_error_has_message (v : Option String) (m : List String)
    (h : parseCustomerId v = Except.error m) : m ≠ [] := by
  cases v with
  | none =>
      simp only [parseCustomerId, Except.error.injEq] at h
      simp [← h]
  | some s => simp [parseCustomerId] at h

/-- Helper: the amount check never produces an empty message list. -/
theorem amount_error_has_message (v : Option String) (m : List String)
    (h : parseAmount v = Except.error m) : m ≠ [] := by
  unfold parseAmount at h
  split at h
  · simp only [Except.error.injEq] at h
    simp [← h]
  · split at h
    · simp at h
    · simp only [Except.error.injEq] at h
      simp [← h]

/-- Helper: the status check never produces an empty message list. -/
theorem status_error_has_message (v : Option String) (m : List String)
    (h : parseStatus v = Except.error m) : m ≠ [] := by
  cases v with
  | none =>
      simp only [parseStatus, Except.error.injEq] at h
      simp [← h]
  | some s =>
      simp only [parseStatus] at h
      split at h
      · simp at h
      · split at h
        · simp at h
        · simp only [Except.error.injEq] at h
          simp [← h]

/-- Helper: a coerced amount that is not greater than 0 fails the amount
    check with the configured gt message. -/
theorem parseAmount_gt_error (v : Option String) (q : ℚ)
    (hj : jsNumber v = some q) (hq : ¬ 0 < q) :
    parseAmount v = .error ["Please enter an amount greater than $0."] := by
  unfold parseAmount
  rw [hj]
  simp [hq]

/-- Helper: a coerced amount that is greater than 0 passes the amount
    check. -/
theorem parseAmount_ok (v : Option String) (q : ℚ)
    (hj : jsNumber v = some q) (hq : 0 < q) :
    parseAmount v = .ok q := by
  unfold parseAmount
  rw [hj]
  simp [hq]

/-- Helper: evaluation of safeParse on the sample valid submission used by
    the success scenarios (customerId c1, amount 45.50, status pending). -/
theorem safeParse_sample :
    safeParse { customerId := some "c1", amount := some "45.50", status := some "pending" } =
      ParseResult.success { customerId := "c1", amount := 91 / 2, status := Status.pending } := by
  have hj : jsNumber (some "45.50") = some ((45 : ℚ) + 50 / 10 ^ 2) := rfl
  have hq : ((45 : ℚ) + 50 / 10 ^ 2) = 91 / 2 := by norm_num
  rw [hq] at hj
  exact safeParse_ok _ _ _ _ rfl (parseAmount_ok _ _ hj (by norm_num)) rfl

/-- Claim C1: for every form submission whose amount field coerces to a
    number less than or equal to 0, both the create action and the update
    action return a result whose errors mapping contains an entry for
    amount, and no database write is performed (the table is unchanged). -/
theorem c1_nonpositive_amount_rejected
    (form : RawForm) (db : List Row) (newId today id : String) (dbFails : Bool) (q : ℚ)
    (hq : jsNumber form.amount = some q) (hle : q ≤ 0) :
    ∃ e : FieldErrors, e.amount ≠ [] ∧
      (createInvoice form db newId today dbFails).returned =
        some { errors := some e, message := some "Missing Fields. Failed to Create Invoice." } ∧
      (createInvoice form db newId today dbFails).db = db ∧
      (updateInvoice id form db dbFails).returned =
        some { errors := some e, message := some "Missing Fields. Failed to Update Invoice." } ∧
      (updateInvoice id form db dbFails).db = db := by
  have ha := parseAmount_gt_error form.amount q hq (not_lt.mpr hle)
  have hf := safeParse_amount_error form _ ha
  refine ⟨{ customerId := errsOf (parseCustomerId form.customerId),
            amount := ["Please enter an amount greater than $0."],
            status := errsOf (parseStatus form.status) }, by simp, ?_, ?_, ?_, ?_⟩ <;>
    simp [createInvoice, updateInvoice, hf]

/-- Witness for C1 at the concrete submission with amount "-5". -/
theorem c1_witness :
    (createInvoice { customerId := some "c1", amount := some "-5", status := some "pending" }
        [] "inv-1" "2025-01-15" false).db = [] := by
  obtain ⟨e, -, -, hdb, -, -⟩ :=
    c1_nonpositive_amount_rejected
      { customerId := some "c1", amount := some "-5", status := some "pending" }
      [] "inv-1" "2025-01-15" "old-id" false (-5) rfl (by norm_num)
  exact hdb

/-- Claim C2: for every submission that passes validation, the create action
    inserts a row whose amount is the dollar amount times 100 (cents), whose
    status is the submitted status and whose date is the formatted current
    date, revalidates the cached listing, redirects to /dashboard/invoices,
    and returns no value on the success path. -/
theorem c2_create_success_inserts
    (form : RawForm) (d : InvoiceInput) (db : List Row) (newId today : String)
    (h : safeParse form = ParseResult.success d) :
    createInvoice form db newId today false =
      { returned := none,
        db := db ++ [{ id := newId, customer_id := d.customerId, amount := d.amount * 100,
                       status := d.status.text, date := today }],
        revalidated := true,
        redirectedTo := some "/dashboard/invoices" } := by
  simp [createInvoice, h]

/-- Witness for C2: the scenario submission with customerId "c1", amount
    "45.50" and status "pending" inserts a row with amount 4550 cents. -/
theorem c2_witness :
    createInvoice { customerId := some "c1", amount := some "45.50", status := some "pending" }
        [] "inv-1" "2025-01-15" false =
      { returned := none,
        db := [{ id := "inv-1", customer_id := "c1", amount := 4550,
                 status := "pending", date := "2025-01-15" }],
        revalidated := true,
        redirectedTo := some "/dashboard/invoices" } := by
  have h := c2_create_success_inserts
    { customerId := some "c1", amount := some "45.50", status := some "pending" }
    { customerId := "c1", amount := 91 / 2, status := Status.pending }
    [] "inv-1" "2025-01-15" safeParse_sample
  rw [h]
  norm_num [Status.text]

/-- Claim C5: for every validated submission whose write statement throws,
    the create and update actions catch the exception and return only the
    generic message naming the failed operation, with no structured field
    errors and no change to the table. -/
theorem c5_db_error_generic
    (form : RawForm) (d : InvoiceInput) (db : List Row) (newId today id : String)
    (h : safeParse form = ParseResult.success d) :
    createInvoice form db newId today true =
      { returned := some { errors := none, message := some "Database Error: Failed to Create Invoice." },
        db := db, revalidated := false, redirectedTo := none } ∧
    updateInvoice id form db true =
      { returned := some { errors := none, message := some "Database Error: Failed to Update Invoice." },
        db := db, revalidated := false, redirectedTo := none } := by
  constructor <;> simp [createInvoice, updateInvoice, h]

/-- Witness for C5 at a concrete validated submission with a throwing
    statement. -/
theorem c5_witness :
    createInvoice { customerId := some "c1", amount := some "45.50", status := some "pending" }
        [] "inv-1" "2025-01-15" true =
      { returned := some { errors := none, message := some "Database Error: Failed to Create Invoice." },
        db := [], revalidated := false, redirectedTo := none } :=
  (c5_db_error_generic
    { customerId := some "c1", amount := some "45.50", status := some "pending" }
    { customerId := "c1", amount := 91 / 2, status := Status.pending }
    [] "inv-1" "2025-01-15" "old-id" safeParse_sample).1

/-- Helper: whenever safeParse fails, at least one field carries a message. -/
theorem safeParse_failure_nonempty (f : RawForm) (e : FieldErrors)
    (h : safeParse f = ParseResult.failure e) :
    e.customerId ≠ [] ∨ e.amount ≠ [] ∨ e.status ≠ [] := by
  unfold safeParse at h
  cases hc : parseCustomerId f.customerId <;>
    cases ha : parseAmount f.amount <;>
      cases hs : parseStatus f.status <;>
        rw [hc, ha, hs] at h <;>
          simp only [errsOf, ParseResult.failure.injEq] at h
  case error.error.error mc ma ms =>
    exact Or.inl (by simp [← h]; exact customerId_error_has_message _ _ hc)
  case error.error.ok mc ma s =>
    exact Or.inl (by simp [← h]; exact customerId_error_has_message _ _ hc)
  case error.ok.error mc a ms =>
    exact Or.inl (by simp [← h]; exact customerId_error_has_message _ _ hc)
  case error.ok.ok mc a s =>
    exact Or.inl (by simp [← h]; exact customerId_error_has_message _ _ hc)
  case ok.error.error c ma ms =>
    exact Or.inr (Or.inl (by simp [← h]; exact amount_error_has_message _ _ ha))
  case ok.error.ok c ma s =>
    exact Or.inr (Or.inl (by simp [← h]; exact amount_error_has_message _ _ ha))
  case ok.ok.error c a ms =>
    exact Or.inr (Or.inr (by simp [← h]; exact status_error_has_message _ _ hs))
  case ok.ok.ok c a s =>
    exact ParseResult.noConfusion h

/-- Claim C7: for every raw mapping of form field names to values,
    validation via safeParse is total and yields a discriminated result:
    success with the typed data, or failure with per-field message lists of
    which at least one is nonempty. -/
theorem c7_safeParse_total (f : RawForm) :
    (∃ d, safeParse f = ParseResult.success d) ∨
    (∃ e, safeParse f = ParseResult.failure e ∧
      (e.customerId ≠ [] ∨ e.amount ≠ [] ∨ e.status ≠ [])) := by
  cases hp : safeParse f with
  | success d => exact Or.inl ⟨d, rfl⟩
  | failure e => exact Or.inr ⟨e, rfl, safeParse_failure_nonempty f e hp⟩

/-- Claim C4: when the invoice fetch of the edit page yields no record, the
    not-found view preempts rendering and the edit form is never rendered. -/
theorem c4_missing_invoice_not_found (customers : List Customer) :
    editInvoicePage none customers = PageRender.notFoundView ∧
    ∀ inv cs, editInvoicePage none customers ≠ PageRender.editForm inv cs := by
  refine ⟨rfl, ?_⟩
  intro inv cs h
  simp [editInvoicePage] at h

/-- Claim C6: the delete action removes exactly the rows matching the given
    identifier and revalidates the listing, returning the success message;
    when the DELETE statement throws it returns the database-error message
    and leaves the table unchanged; neither path redirects. -/
theorem c6_delete_behavior (id : String) (db : List Row) :
    (∀ r : Row, r ∈ (deleteInvoice id db false).db ↔ r ∈ db ∧ r.id ≠ id) ∧
    (deleteInvoice id db false).returned =
      some { errors := none, message := some "Deleted Invoice." } ∧
    (deleteInvoice id db false).revalidated = true ∧
    (deleteInvoice id db false).redirectedTo = none ∧
    (deleteInvoice id db true).returned =
      some { errors := none, message := some "Database Error: Failed to Delete Invoice." } ∧
    (deleteInvoice id db true).db = db ∧
    (deleteInvoice id db true).redirectedTo = none := by
  refine ⟨?_, rfl, rfl, rfl, rfl, rfl, rfl⟩
  intro r
  simp [deleteInvoice, List.mem_filter]

/-- Claim C9: cache invalidation in the delete action happens only when the
    DELETE statement succeeds; on a throwing statement the action returns
    the error message without revalidating and the table is unchanged. -/
theorem c9_delete_error_skips_revalidate (id : String) (db : List Row) :
    (deleteInvoice id db true).revalidated = false ∧
    (deleteInvoice id db true).db = db ∧
    (deleteInvoice id db true).returned =
      some { errors := none, message := some "Database Error: Failed to Delete Invoice." } ∧
    (deleteInvoice id db false).revalidated = true :=
  ⟨rfl, rfl, rfl, rfl⟩

/-- Claim C8: a successful update overwrites exactly the customer reference,
    the amount in cents and the status of the row matching the identifier;
    the date of that row is kept and rows with other identifiers are
    unchanged. -/
theorem c8_update_frame
    (form : RawForm) (d : InvoiceInput) (id : String) (db : List Row) (i : Nat) (r : Row)
    (h : safeParse form = ParseResult.success d) (hr : db[i]? = some r) :
    (updateInvoice id form db false).db.length = db.length ∧
    ((updateInvoice id form db false).db[i]?).map Row.date = some r.date ∧
    ((updateInvoice id form db false).db[i]?).map Row.id = some r.id ∧
    (r.id ≠ id → (updateInvoice id form db false).db[i]? = some r) ∧
    (r.id = id → (updateInvoice id form db false).db[i]? =
      some { r with customer_id := d.customerId, amount := d.amount * 100,
                    status := d.status.text }) := by
  have hdb : (updateInvoice id form db false).db =
      db.map (fun s =>
        if s.id = id then
          { s with customer_id := d.customerId, amount := d.amount * 100, status := d.status.text }
        else s) := by
    simp [updateInvoice, h]
  rw [hdb]
  refine ⟨by simp, ?_, ?_, ?_, ?_⟩
  · rw [List.getElem?_map, hr]
    by_cases hid : r.id = id <;> simp [hid]
  · rw [List.getElem?_map, hr]
    by_cases hid : r.id = id <;> simp [hid]
  · intro hne
    rw [List.getElem?_map, hr]
    simp [hne]
  · intro heq
    rw [List.getElem?_map, hr]
    simp [heq]

/-- Witness for C8: updating the single-row table at its own identifier
    overwrites customer, amount and status while keeping the date. -/
theorem c8_witness :
    (updateInvoice "a"
        { customerId := some "c1", amount := some "45.50", status := some "pending" }
        [{ id := "a", customer_id := "c0", amount := 100, status := "paid", date := "2024-12-31" }]
        false).db[0]? =
      some { id := "a", customer_id := "c1", amount := 91 / 2 * 100,
             status := "pending", date := "2024-12-31" } :=
  (c8_update_frame
    { customerId := some "c1", amount := some "45.50", status := some "pending" }
    { customerId := "c1", amount := 91 / 2, status := Status.pending }
    "a"
    [{ id := "a", customer_id := "c0", amount := 100, status := "paid", date := "2024-12-31" }]
    0
    { id := "a", customer_id := "c0", amount := 100, status := "paid", date := "2024-12-31" }
    safeParse_sample rfl).2.2.2.2 rfl

/-- Claim C10: when the amount field is absent or the empty string, the
    numeric coercion yields 0, so both actions report the gt message for
    amount rather than a distinct missing-field message. -/
theorem c10_empty_amount_gt_error
    (form : RawForm) (db : List Row) (newId today id : String) (dbFails : Bool)
    (h : form.amount = none ∨ form.amount = some "") :
    jsNumber form.amount = some 0 ∧
    ∃ e : FieldErrors, safeParse form = ParseResult.failure e ∧
      e.amount = ["Please enter an amount greater than $0."] ∧
      (createInvoice form db newId today dbFails).returned =
        some { errors := some e, message := some "Missing Fields. Failed to Create Invoice." } ∧
      (updateInvoice id form db dbFails).returned =
        some { errors := some e, message := some "Missing Fields. Failed to Update Invoice." } := by
  have h0 : jsNumber form.amount = some 0 := by
    rcases h with h | h <;> rw [h] <;> rfl
  have ha := parseAmount_gt_error form.amount 0 h0 (by norm_num)
  have hf := safeParse_amount_error form _ ha
  exact ⟨h0, _, hf, rfl, by simp [createInvoice, hf], by simp [updateInvoice, hf]⟩

/-- Witness for C10 at a submission with the amount field absent. -/
theorem c10_witness :
    jsNumber (RawForm.mk (some "c1") none (some "paid")).amount = some 0 := by
  obtain ⟨h0, -⟩ := c10_empty_amount_gt_error
    { customerId := some "c1", amount := none, status := some "paid" }
    [] "inv-1" "2025-01-15" "old-id" false (Or.inl rfl)
  exact h0

end Accounting
